import Mathlib

/-!
# Verification of the reconnecting WebSocket transport client

Shallow embedding of `src/lib/Socket/Client/websocket.js` (class
`WebSocketClient`).  The client's mutable fields become a `Client` record;
each method and each attached event handler becomes a pure function from
`Client` to `Client` together with an `Out` record of observable effects
(emitted events, callback invocations, payloads handed to the underlying
socket, underlying `close()` requests).  Timers are modelled as boolean
"pending" flags; a timer callback may run only while its flag is set.
Time (`Date.now()`) is passed in explicitly as a natural number.
-/

namespace WS

/-- JavaScript `x || d` defaulting on an optional numeric config field:
`undefined` and `0` are falsy, any other number is itself. -/
def jsOr : Option Nat → Nat → Nat
  | none, d => d
  | some v, d => if v = 0 then d else v

/-- JavaScript truthiness of an optional numeric config field
(used for `if (this.config.connectTimeoutMs)` and
`if (!this.config.heartbeatInterval)`). -/
def truthy : Option Nat → Bool
  | none => false
  | some v => v ≠ 0

/-- The recognized configuration options (constructor reads
`maxReconnectAttempts`, `reconnectDelay`, `maxReconnectDelay`,
`maxQueueSize`; `send` reads `queueMessages`; `connect` reads
`connectTimeoutMs` and `options.headers`; the heartbeat reads
`heartbeatInterval` and `heartbeatTimeout`). -/
structure Config where
  maxReconnectAttempts : Option Nat := none
  reconnectDelay : Option Nat := none
  maxReconnectDelay : Option Nat := none
  maxQueueSize : Option Nat := none
  queueMessages : Bool := false
  connectTimeoutMs : Option Nat := none
  heartbeatInterval : Option Nat := none
  heartbeatTimeout : Option Nat := none
deriving DecidableEq, Repr

/-- One entry of `this.messageQueue`: `{ data: str, callback: cb }`.
Callbacks are identified by a number; `none` models an `undefined` callback
(the JS code guards every invocation with `if (cb)`). -/
structure Entry where
  data : String
  callback : Option Nat
deriving DecidableEq, Repr

/-- The mutable fields of `WebSocketClient`.  `socket` records whether the
client currently holds a live handle (`this.socket !== null`);
`_readyState` is the numeric state 0 = CONNECTING, 1 = OPEN, 2 = CLOSING,
3 = CLOSED; `reconnectTimer`, `pingInterval`, `pingTimeout` and
`connectTimeoutPending` record whether the corresponding timer is armed
(`connectTimeoutPending` is the one-shot `setTimeout` armed inside
`connect()` when `connectTimeoutMs` is truthy; it is local to `connect`
in the JS source and cleared only by the wrapped `onopen`). -/
structure Client where
  socket : Bool
  _readyState : Nat
  reconnectAttempts : Nat
  maxReconnectAttempts : Nat
  reconnectDelay : Nat
  maxReconnectDelay : Nat
  reconnectTimer : Bool
  shouldReconnect : Bool
  messageQueue : List Entry
  maxQueueSize : Nat
  pingInterval : Bool
  pingTimeout : Bool
  lastPongTime : Option Nat
  connectTimeoutPending : Bool
  config : Config
deriving DecidableEq, Repr

/-- The constructor of `WebSocketClient`. -/
def mkClient (config : Config) : Client :=
  { socket := false
    _readyState := 3
    reconnectAttempts := 0
    maxReconnectAttempts := jsOr config.maxReconnectAttempts 5
    reconnectDelay := jsOr config.reconnectDelay 1000
    maxReconnectDelay := jsOr config.maxReconnectDelay 30000
    reconnectTimer := false
    shouldReconnect := false
    messageQueue := []
    maxQueueSize := jsOr config.maxQueueSize 100
    pingInterval := false
    pingTimeout := false
    lastPongTime := none
    connectTimeoutPending := false
    config := config }

/-- `get isOpen() { return this._readyState === 1; }` -/
def isOpen (c : Client) : Bool := c._readyState == 1

/-- `get isClosed() { return this.socket === null || this._readyState === 3; }` -/
def isClosed (c : Client) : Bool := !c.socket || c._readyState == 3

/-- `get isClosing() { return this.socket === null || this._readyState === 2; }` -/
def isClosing (c : Client) : Bool := !c.socket || c._readyState == 2

/-- `get isConnecting() { return this._readyState === 0; }` -/
def isConnecting (c : Client) : Bool := c._readyState == 0

/-- The events the client emits. -/
inductive Ev
  | opened
  | message (data : String)
  | error (e : String)
  | closeEv (code : Nat) (reason : String)
  | reconnecting (attempt : Nat) (delayMs : Nat)
  | reconnectFailed (attempts : Nat)
  | heartbeatTimeout
deriving DecidableEq, Repr

/-- An invocation of a send callback: which callback, and the error it
received (`none` = called with no error). -/
structure CbCall where
  cb : Nat
  err : Option String
deriving DecidableEq, Repr

/-- Observable effects of one operation or handler: events emitted via
`this.emit`, callback invocations, payloads successfully handed to the
underlying `socket.send`, and the number of underlying `socket.close()`
requests issued. -/
structure Out where
  events : List Ev := []
  cbs : List CbCall := []
  sent : List String := []
  closeCalls : Nat := 0
deriving DecidableEq, Repr

def noOut : Out := {}

def Out.append (a b : Out) : Out :=
  { events := a.events ++ b.events
    cbs := a.cbs ++ b.cbs
    sent := a.sent ++ b.sent
    closeCalls := a.closeCalls + b.closeCalls }

/-- `if (cb) cb(err)` -/
def cbOut (cb : Option Nat) (err : Option String) : List CbCall :=
  match cb with
  | none => []
  | some i => [⟨i, err⟩]

/-- Behaviour of the underlying socket's `send`: `sendErr s = some e`
means `this.socket.send(s)` throws `e` synchronously; `none` means it
succeeds. -/
structure Env where
  sendErr : String → Option String

/-- An environment in which every underlying send succeeds. -/
def envOk : Env := ⟨fun _ => none⟩

/-- `send(str, cb)`.  Returns the updated client, the observable effects
and the boolean result. -/
def send (env : Env) (c : Client) (str : String) (cb : Option Nat) :
    Client × Out × Bool :=
  if c.socket = false ∨ c._readyState ≠ 1 then
    if c.config.queueMessages = true ∧ c.messageQueue.length < c.maxQueueSize then
      ({ c with messageQueue := c.messageQueue ++ [⟨str, cb⟩] }, noOut, true)
    else
      (c, { noOut with cbs := cbOut cb (some "WebSocket is not open") }, false)
  else
    match env.sendErr str with
    | none => (c, { noOut with sent := [str], cbs := cbOut cb none }, true)
    | some e => (c, { noOut with cbs := cbOut cb (some e) }, false)

/-- The body of `flushMessageQueue`'s `while` loop, run on explicit fuel.
Whenever a handle exists the loop body strictly shortens the queue (the
only branch of `send` that appends to the queue requires the handle to be
absent), so a fuel of the initial queue length is exact on every state on
which the JS loop terminates. -/
def flushLoop (env : Env) : Nat → Client → Client × Out
  | 0, c => (c, noOut)
  | Nat.succ fuel, c =>
    if c._readyState = 1 then
      match c.messageQueue with
      | [] => (c, noOut)
      | e :: rest =>
        let c1 := { c with messageQueue := rest }
        let r := send env c1 e.data e.callback
        let r2 := flushLoop env fuel r.1
        (r2.1, Out.append r.2.1 r2.2)
    else (c, noOut)

/-- `flushMessageQueue()`: `while (this.messageQueue.length > 0 &&
this._readyState === 1) { const { data, callback } = this.messageQueue.shift();
this.send(data, callback); }` -/
def flushMessageQueue (env : Env) (c : Client) : Client × Out :=
  flushLoop env c.messageQueue.length c

/-- `stopHeartbeat()`: clears `pingInterval` and `pingTimeout`. -/
def stopHeartbeat (c : Client) : Client :=
  { c with pingInterval := false, pingTimeout := false }

/-- `startHeartbeat()` at time `now`: returns immediately when no
heartbeat interval is configured; otherwise stops any prior heartbeat,
resets `lastPongTime` to now and arms the repeating interval timer. -/
def startHeartbeat (c : Client) (now : Nat) : Client :=
  if truthy c.config.heartbeatInterval = false then c
  else
    let c1 := stopHeartbeat c
    { c1 with lastPongTime := some now, pingInterval := true }

/-- One tick of the `setInterval` armed by `startHeartbeat`, at time
`now`.  `Date.now() - this.lastPongTime` coerces a `null` `lastPongTime`
to 0.  The handler mutates no client field; on a violation it emits
`heartbeat-timeout` and requests `this.socket.close()`. -/
def heartbeatTick (c : Client) (now : Nat) : Client × Out :=
  if c._readyState = 1 then
    let timeSinceLastPong := now - c.lastPongTime.getD 0
    if timeSinceLastPong > jsOr c.config.heartbeatTimeout 30000 then
      (c, { noOut with events := [Ev.heartbeatTimeout], closeCalls := 1 })
    else (c, noOut)
  else (c, noOut)

/-- `clearReconnectTimer()` -/
def clearReconnectTimer (c : Client) : Client :=
  { c with reconnectTimer := false }

/-- `scheduleReconnect()`: clears the prior timer, computes
`min(reconnectDelay * 2 ** reconnectAttempts, maxReconnectDelay)`,
increments `reconnectAttempts`, emits `reconnecting(attempts, delay)` and
arms the reconnect timer. -/
def scheduleReconnect (c : Client) : Client × Out :=
  let c1 := clearReconnectTimer c
  let delay := min (c1.reconnectDelay * 2 ^ c1.reconnectAttempts) c1.maxReconnectDelay
  let c2 := { c1 with reconnectAttempts := c1.reconnectAttempts + 1 }
  ({ c2 with reconnectTimer := true },
   { noOut with events := [Ev.reconnecting c2.reconnectAttempts delay] })

/-- `connect()`: no-op when a handle exists; otherwise sets
`shouldReconnect`, state → CONNECTING, creates the handle and — when
`connectTimeoutMs` is truthy — arms the one-shot connect-timeout timer. -/
def connect (c : Client) : Client :=
  if c.socket then c
  else
    { c with
      shouldReconnect := true
      _readyState := 0
      socket := true
      connectTimeoutPending := truthy c.config.connectTimeoutMs }

/-- `close()`: no-op when no handle exists; otherwise clears
`shouldReconnect`, cancels the reconnect timer, stops the heartbeat,
passes through CLOSING, requests `this.socket.close()`, clears the handle
and ends CLOSED.  Note that the connect-timeout timer armed inside
`connect()` is *not* touched here. -/
def close (c : Client) : Client × Out :=
  if c.socket = false then (c, noOut)
  else
    let c1 := { c with shouldReconnect := false }
    let c2 := clearReconnectTimer c1
    let c3 := stopHeartbeat c2
    let c4 := { c3 with _readyState := 2 }
    ({ c4 with socket := false, _readyState := 3 },
     { noOut with closeCalls := 1 })

/-- The `onopen` handler (as wrapped by the connect-timeout logic, which
first disarms the connect-timeout timer): state → OPEN, attempts reset,
emit `open`, flush the queue, start the heartbeat. -/
def onOpen (env : Env) (c : Client) (now : Nat) : Client × Out :=
  let c1 := { c with connectTimeoutPending := false, _readyState := 1,
                     reconnectAttempts := 0 }
  let r := flushMessageQueue env c1
  (startHeartbeat r.1 now,
   Out.append { noOut with events := [Ev.opened] } r.2)

/-- The `onmessage` handler at time `now`: record liveness, re-emit the
raw payload. -/
def onMessage (c : Client) (data : String) (now : Nat) : Client × Out :=
  ({ c with lastPongTime := some now },
   { noOut with events := [Ev.message data] })

/-- The `onerror` handler: re-emit, touch nothing. -/
def onError (c : Client) (e : String) : Client × Out :=
  (c, { noOut with events := [Ev.error e] })

/-- The `onclose` handler: state → CLOSED, stop heartbeat, emit
`close(code, reason)`, clear the handle; then either schedule a reconnect
or emit `reconnect-failed`. -/
def onClose (c : Client) (code : Nat) (reason : String) : Client × Out :=
  let c1 := stopHeartbeat { c with _readyState := 3 }
  let c2 := { c1 with socket := false }
  let o1 : Out := { noOut with events := [Ev.closeEv code reason] }
  if c2.shouldReconnect = true ∧ c2.reconnectAttempts < c2.maxReconnectAttempts then
    let r := scheduleReconnect c2
    (r.1, Out.append o1 r.2)
  else if c2.reconnectAttempts ≥ c2.maxReconnectAttempts then
    (c2, Out.append o1 { noOut with events := [Ev.reconnectFailed c2.reconnectAttempts] })
  else (c2, o1)

/-- The connect-timeout timer firing: the one-shot timer is consumed;
when state is still CONNECTING it calls `close()` and emits
`error(new Error('Connection timeout'))`, otherwise it does nothing. -/
def connectTimeoutFire (c : Client) : Client × Out :=
  let c0 := { c with connectTimeoutPending := false }
  if c0._readyState = 0 then
    let r := close c0
    (r.1, Out.append r.2 { noOut with events := [Ev.error "Connection timeout"] })
  else (c0, noOut)

/-- `resetReconnectAttempts()` -/
def resetReconnectAttempts (c : Client) : Client :=
  { c with reconnectAttempts := 0 }

/-- Snapshot returned by `getConnectionStats()`. -/
structure Stats where
  readyState : Nat
  reconnectAttempts : Nat
  queuedMessages : Nat
  lastPongTime : Option Nat
  isHealthy : Bool
deriving DecidableEq, Repr

/-- `getConnectionStats()` at time `now`. -/
def getConnectionStats (c : Client) (now : Nat) : Stats :=
  { readyState := c._readyState
    reconnectAttempts := c.reconnectAttempts
    queuedMessages := c.messageQueue.length
    lastPongTime := c.lastPongTime
    isHealthy :=
      match c.lastPongTime with
      | none => false
      | some t => decide (now - t < 60000) }

/-- The atomic steps of the event-driven model: the public operations, the
four underlying socket events (deliverable only while the client holds the
handle they are attached to), and the three timer callbacks (runnable only
while their timer is armed). -/
inductive Act
  | connectOp
  | closeOp
  | sendOp (str : String) (cb : Option Nat)
  | resetOp
  | openEvt (now : Nat)
  | messageEvt (data : String) (now : Nat)
  | errorEvt (e : String)
  | closeEvt (code : Nat) (reason : String)
  | reconnectFire
  | ctFire
  | tick (now : Nat)
deriving DecidableEq, Repr

/-- Run one step: each act dispatches to the corresponding method or
handler.  `reconnectFire` consumes the reconnect timer and calls
`connect()`. -/
def stepA (env : Env) (c : Client) : Act → Client × Out
  | .connectOp => (connect c, noOut)
  | .closeOp => close c
  | .sendOp s cb =>
    let r := send env c s cb
    (r.1, r.2.1)
  | .resetOp => (resetReconnectAttempts c, noOut)
  | .openEvt now => onOpen env c now
  | .messageEvt d now => onMessage c d now
  | .errorEvt e => onError c e
  | .closeEvt code reason => onClose c code reason
  | .reconnectFire => (connect (clearReconnectTimer c), noOut)
  | .ctFire => connectTimeoutFire c
  | .tick now => heartbeatTick c now

/-- Which acts can occur in a given client state: public operations
always; underlying socket events only while the client holds a handle;
each timer callback only while its timer is armed. -/
def enabled (c : Client) : Act → Bool
  | .connectOp => true
  | .closeOp => true
  | .sendOp _ _ => true
  | .resetOp => true
  | .openEvt _ => c.socket
  | .messageEvt _ _ => c.socket
  | .errorEvt _ => c.socket
  | .closeEvt _ _ => c.socket
  | .reconnectFire => c.reconnectTimer
  | .ctFire => c.connectTimeoutPending
  | .tick _ => c.pingInterval

/-- Is this act a public operation (caller-initiated), as opposed to an
underlying event or a timer firing? -/
def isPublicOp : Act → Bool
  | .connectOp => true
  | .closeOp => true
  | .sendOp _ _ => true
  | .resetOp => true
  | _ => false

/-- The states reachable from a freshly constructed client by enabled
steps. -/
inductive Reachable (env : Env) : Client → Prop
  | init (cfg : Config) : Reachable env (mkClient cfg)
  | step (c : Client) (a : Act) : Reachable env c → enabled c a = true →
      Reachable env (stepA env c a).1

/-- Run a list of acts, accumulating the observable effects. -/
def runA (env : Env) (c : Client) : List Act → Client × Out
  | [] => (c, noOut)
  | a :: rest =>
    let r := stepA env c a
    let r2 := runA env r.1 rest
    (r2.1, Out.append r.2 r2.2)

/-- Every act of the list is enabled in the state at which it runs. -/
def allEnabled (env : Env) (c : Client) : List Act → Bool
  | [] => true
  | a :: rest => enabled c a && allEnabled env (stepA env c a).1 rest

/-- Count the occurrences of an event in an effect trace. -/
def countEv (l : List Ev) (e : Ev) : Nat :=
  (l.filter (fun x => decide (x = e))).length

/-- Does the trace contain any `reconnecting` event? -/
def hasReconnecting : List Ev → Bool
  | [] => false
  | Ev.reconnecting _ _ :: _ => true
  | _ :: rest => hasReconnecting rest

/-- The callback invocations a FIFO drain of the given entries produces:
one invocation per entry, in insertion order, each receiving the error of
its own underlying send (or no error on success). -/
def drainCbs (env : Env) : List Entry → List CbCall
  | [] => []
  | e :: rest => cbOut e.callback (env.sendErr e.data) ++ drainCbs env rest

/-- The payloads a FIFO drain hands successfully to the underlying
socket, in insertion order (failed sends hand nothing on). -/
def drainSent (env : Env) : List Entry → List String
  | [] => []
  | e :: rest =>
    (match env.sendErr e.data with
     | none => [e.data]
     | some _ => []) ++ drainSent env rest

/-- The events emitted by `n` consecutive `scheduleReconnect` calls. -/
def schedEvents (c : Client) : Nat → List Ev
  | 0 => []
  | n + 1 =>
    let r := scheduleReconnect c
    r.2.events ++ schedEvents r.1 n

/-- The state invariant maintained at every quiescent point: a handle is
held exactly in states CONNECTING and OPEN, the state is never quiescently
CLOSING (state 2), and the queue respects its bound. -/
def Inv (c : Client) : Prop :=
  (c.socket = true ↔ (c._readyState = 0 ∨ c._readyState = 1)) ∧
  (c._readyState = 0 ∨ c._readyState = 1 ∨ c._readyState = 3) ∧
  c.messageQueue.length ≤ c.maxQueueSize

/-- An all-defaults configuration. -/
def defCfg : Config := {}

/-- Configuration of the bounded-queue scenario: `maxQueueSize = 2`,
`queueMessages = true`. -/
def cfgQ : Config := { maxQueueSize := some 2, queueMessages := true }

/-- A configuration with a heartbeat interval of 1000 (default heartbeat
timeout 30000). -/
def cfgHB : Config := { heartbeatInterval := some 1000 }

/-- A configuration with a connect timeout of 5000. -/
def cfgCT : Config := { connectTimeoutMs := some 5000 }

/-- A configuration that only enables queuing. -/
def cfgQM : Config := { queueMessages := true }

/-- An environment in which sending the payload `"b"` throws `"boom"` and
every other send succeeds. -/
def envB : Env := ⟨fun s => if s = "b" then some "boom" else none⟩

/-- An OPEN-transition client holding three queued entries `a`, `b`, `c`
with callbacks 1, 2, 3. -/
def cQ3 : Client :=
  { mkClient cfgQM with
      socket := true
      _readyState := 0
      messageQueue := [⟨"a", some 1⟩, ⟨"b", some 2⟩, ⟨"c", some 3⟩] }

/-- The exhaustion run: one caller `connect()`, then six underlying close
events with the five scheduled reconnects firing in between (default
`maxReconnectAttempts = 5`). -/
def exhaustActs : List Act :=
  [Act.connectOp, Act.closeEvt 1006 "", Act.reconnectFire, Act.closeEvt 1006 "",
   Act.reconnectFire, Act.closeEvt 1006 "", Act.reconnectFire, Act.closeEvt 1006 "",
   Act.reconnectFire, Act.closeEvt 1006 "", Act.reconnectFire, Act.closeEvt 1006 ""]

/-- A heartbeat run in which the monitor ticks twice after the link went
silent, the underlying close requested by the first tick not yet having
been delivered. -/
def hbActs : List Act :=
  [Act.connectOp, Act.openEvt 0, Act.tick 40000, Act.tick 41000]

/-- First step of the bounded-queue scenario: `send('a')` while CLOSED. -/
def qS1 : Client × Out × Bool := send envOk (mkClient cfgQ) "a" (some 1)

/-- Second step: `send('b')`. -/
def qS2 : Client × Out × Bool := send envOk qS1.1 "b" (some 2)

/-- Third step: `send('c')` against the now-full queue. -/
def qS3 : Client × Out × Bool := send envOk qS2.1 "c" (some 3)

/-- A client in the OPEN state holding a handle. -/
def openC : Client :=
  { mkClient defCfg with socket := true, _readyState := 1 }

/-- An OPEN client with heartbeat running, last inbound traffic at time 0. -/
def openHB : Client :=
  { mkClient cfgHB with
      socket := true
      _readyState := 1
      lastPongTime := some 0
      pingInterval := true }

/-! ## Helper lemmas -/

/-- `send` changes nothing but the message queue. -/
theorem send_fst (env : Env) (c : Client) (s : String) (cb : Option Nat) :
    (send env c s cb).1 = { c with messageQueue := (send env c s cb).1.messageQueue } := by
  unfold send
  split
  · split <;> rfl
  · split <;> rfl

/-- `send` preserves the queue bound. -/
theorem send_qlen (env : Env) (c : Client) (s : String) (cb : Option Nat)
    (h : c.messageQueue.length ≤ c.maxQueueSize) :
    (send env c s cb).1.messageQueue.length ≤ c.maxQueueSize := by
  unfold send
  split
  · split
    · next h2 =>
      simp only [List.length_append, List.length_cons, List.length_nil]
      omega
    · exact h
  · split <;> exact h

/-- While OPEN with a handle, `send` hands the payload to the underlying
socket and reports the synchronous outcome through the callback, touching
no client state. -/
theorem send_open (env : Env) (c : Client) (s : String) (cb : Option Nat)
    (hs : c.socket = true) (hr : c._readyState = 1) :
    send env c s cb =
      match env.sendErr s with
      | none => (c, { noOut with sent := [s], cbs := cbOut cb none }, true)
      | some e => (c, { noOut with cbs := cbOut cb (some e) }, false) := by
  unfold send
  rw [if_neg]
  simp [hs, hr]

/-- The drain loop, run while OPEN with a handle and with fuel equal to
the queue length, empties the queue, invokes each entry's callback with
the outcome of its own resubmitted send (in FIFO order) and hands the
successful payloads on, in order. -/
theorem flushLoop_drain (env : Env) :
    ∀ (q : List Entry) (c : Client), c.socket = true → c._readyState = 1 →
      c.messageQueue = q →
      flushLoop env q.length c =
        ({ c with messageQueue := [] },
         { noOut with cbs := drainCbs env q, sent := drainSent env q }) := by
  intro q
  induction q with
  | nil =>
    intro c hs hr hq
    show (c, noOut) = _
    have h0 : ({ c with messageQueue := [] } : Client) = c := by rw [← hq]
    rw [h0]
    simp [drainCbs, drainSent, noOut]
  | cons e rest ih =>
    intro c hs hr hq
    show flushLoop env (rest.length + 1) c = _
    unfold flushLoop
    rw [if_pos hr, hq]
    dsimp only
    rw [send_open env { c with messageQueue := rest } e.data e.callback hs hr]
    cases hE : env.sendErr e.data with
    | none =>
      dsimp only
      rw [ih { c with messageQueue := rest } hs hr rfl]
      simp [Out.append, noOut, drainCbs, drainSent, hE]
    | some er =>
      dsimp only
      rw [ih { c with messageQueue := rest } hs hr rfl]
      simp [Out.append, noOut, drainCbs, drainSent, hE]

/-- Evaluation of the `onopen` handler while a handle is held: the state
moves to OPEN with attempts reset, the queue is drained exactly once (in
FIFO order, each callback receiving its own outcome) and the heartbeat is
then started on the drained state. -/
theorem onOpen_eq (env : Env) (c : Client) (now : Nat) (hs : c.socket = true) :
    onOpen env c now =
      (startHeartbeat { c with connectTimeoutPending := false, _readyState := 1,
                               reconnectAttempts := 0, messageQueue := [] } now,
       { noOut with events := [Ev.opened], cbs := drainCbs env c.messageQueue,
                    sent := drainSent env c.messageQueue }) := by
  unfold onOpen flushMessageQueue
  dsimp only
  have hd := flushLoop_drain env c.messageQueue
    { c with connectTimeoutPending := false, _readyState := 1, reconnectAttempts := 0 }
    hs rfl rfl
  rw [hd]
  simp [Out.append, noOut]

/-- The heartbeat interval handler mutates no client field. -/
theorem heartbeatTick_fst (c : Client) (now : Nat) : (heartbeatTick c now).1 = c := by
  unfold heartbeatTick
  split
  · dsimp only
    split <;> rfl
  · rfl

/-- A freshly constructed client satisfies the state invariant. -/
theorem inv_init (cfg : Config) : Inv (mkClient cfg) := by
  unfold Inv mkClient
  exact ⟨by simp, by simp, Nat.zero_le _⟩

/-- Every enabled step preserves the state invariant. -/
theorem inv_step (env : Env) (c : Client) (a : Act) (hInv : Inv c)
    (hEn : enabled c a = true) : Inv (stepA env c a).1 := by
  obtain ⟨h1, h2, h3⟩ := hInv
  cases a with
  | connectOp =>
    show Inv (connect c)
    unfold connect
    split
    · exact ⟨h1, h2, h3⟩
    · exact ⟨by simp, by simp, h3⟩
  | closeOp =>
    show Inv (close c).1
    unfold close clearReconnectTimer stopHeartbeat
    split
    · exact ⟨h1, h2, h3⟩
    · exact ⟨by simp, by simp, h3⟩
  | sendOp s cb =>
    show Inv (send env c s cb).1
    have hf := send_fst env c s cb
    refine ⟨?_, ?_, ?_⟩
    · rw [hf]; exact h1
    · rw [hf]; exact h2
    · rw [hf]; exact send_qlen env c s cb h3
  | resetOp => exact ⟨h1, h2, h3⟩
  | openEvt now =>
    have hs : c.socket = true := hEn
    show Inv (onOpen env c now).1
    rw [onOpen_eq env c now hs]
    show Inv (startHeartbeat { c with connectTimeoutPending := false, _readyState := 1,
                                      reconnectAttempts := 0, messageQueue := [] } now)
    unfold startHeartbeat stopHeartbeat
    split
    · exact ⟨by simp [hs], by simp, Nat.zero_le _⟩
    · exact ⟨by simp [hs], by simp, Nat.zero_le _⟩
  | messageEvt d now =>
    exact ⟨h1, h2, h3⟩
  | errorEvt e =>
    exact ⟨h1, h2, h3⟩
  | closeEvt code reason =>
    show Inv (onClose c code reason).1
    unfold onClose scheduleReconnect clearReconnectTimer stopHeartbeat
    dsimp only
    split
    · exact ⟨by simp, by simp, h3⟩
    · split
      · exact ⟨by simp, by simp, h3⟩
      · exact ⟨by simp, by simp, h3⟩
  | reconnectFire =>
    show Inv (connect (clearReconnectTimer c))
    unfold connect clearReconnectTimer
    split
    · exact ⟨h1, h2, h3⟩
    · exact ⟨by simp, by simp, h3⟩
  | ctFire =>
    show Inv (connectTimeoutFire c).1
    unfold connectTimeoutFire
    dsimp only
    split
    · next h0 =>
      have hsock : c.socket = true := h1.mpr (Or.inl h0)
      unfold close clearReconnectTimer stopHeartbeat
      rw [if_neg (by simp [hsock])]
      exact ⟨by simp, by simp, h3⟩
    · exact ⟨h1, h2, h3⟩
  | tick now =>
    show Inv (heartbeatTick c now).1
    rw [heartbeatTick_fst]
    exact ⟨h1, h2, h3⟩

/-- Every reachable quiescent state satisfies the state invariant. -/
theorem reachable_inv (env : Env) (c : Client) (h : Reachable env c) : Inv c := by
  induction h with
  | init cfg => exact inv_init cfg
  | step c a hr hEn ih => exact inv_step _ _ _ ih hEn

/-! ## Claims -/

/-- C1: for every reconnect attempt `n` (1-indexed, so the counter reads
`n - 1` when `scheduleReconnect` runs), the scheduled delay equals
`min(reconnectDelay * 2^(n-1), maxReconnectDelay)`, the attempt counter is
incremented to `n` at schedule time and `reconnecting(n, delay)` is
emitted at schedule time; with the defaults `reconnectDelay = 1000` and
`maxReconnectDelay = 30000` the delays for `n = 1..10` are
1000, 2000, 4000, 8000, 16000, 30000, 30000, 30000, 30000, 30000. -/
theorem C1_backoff_schedule (c : Client) (n : Nat) (hn : 1 ≤ n)
    (h : c.reconnectAttempts = n - 1) :
    (scheduleReconnect c).1.reconnectAttempts = n ∧
    (scheduleReconnect c).2.events =
      [Ev.reconnecting n (min (c.reconnectDelay * 2 ^ (n - 1)) c.maxReconnectDelay)] ∧
    schedEvents (mkClient defCfg) 10 =
      [Ev.reconnecting 1 1000, Ev.reconnecting 2 2000, Ev.reconnecting 3 4000,
       Ev.reconnecting 4 8000, Ev.reconnecting 5 16000, Ev.reconnecting 6 30000,
       Ev.reconnecting 7 30000, Ev.reconnecting 8 30000, Ev.reconnecting 9 30000,
       Ev.reconnecting 10 30000] := by
  have hn1 : n - 1 + 1 = n := Nat.succ_pred_eq_of_pos hn
  refine ⟨?_, ?_, by decide⟩
  · unfold scheduleReconnect clearReconnectTimer
    dsimp only
    rw [h, hn1]
  · unfold scheduleReconnect clearReconnectTimer
    dsimp only
    rw [h, hn1]

theorem C1_backoff_schedule_witness :
    (scheduleReconnect (mkClient defCfg)).1.reconnectAttempts = 1 ∧
    (scheduleReconnect (mkClient defCfg)).2.events =
      [Ev.reconnecting 1
        (min ((mkClient defCfg).reconnectDelay * 2 ^ (1 - 1))
          (mkClient defCfg).maxReconnectDelay)] ∧
    schedEvents (mkClient defCfg) 10 =
      [Ev.reconnecting 1 1000, Ev.reconnecting 2 2000, Ev.reconnecting 3 4000,
       Ev.reconnecting 4 8000, Ev.reconnecting 5 16000, Ev.reconnecting 6 30000,
       Ev.reconnecting 7 30000, Ev.reconnecting 8 30000, Ev.reconnecting 9 30000,
       Ev.reconnecting 10 30000] :=
  C1_backoff_schedule (mkClient defCfg) 1 (by decide) (by decide)

/-- C6: the queue length never exceeds `maxQueueSize` in any reachable
state, and with `maxQueueSize = 2`, `queueMessages = true` while CLOSED:
`send('a')` and `send('b')` return true leaving queue length 2, while
`send('c')` returns false, its callback receives an error, and the queue
length stays 2. -/
theorem C6_queue_bound (env : Env) (c : Client) (h : Reachable env c) :
    c.messageQueue.length ≤ c.maxQueueSize ∧
    qS1.2.2 = true ∧
    qS2.2.2 = true ∧
    qS2.1.messageQueue.length = 2 ∧
    qS3.2.2 = false ∧
    qS3.2.1.cbs = [⟨3, some "WebSocket is not open"⟩] ∧
    qS3.1.messageQueue.length = 2 :=
  ⟨(reachable_inv env c h).2.2, by decide, by decide, by decide, by decide,
   by decide, by decide⟩

theorem C6_queue_bound_witness :
    (mkClient cfgQ).messageQueue.length ≤ (mkClient cfgQ).maxQueueSize ∧
    qS1.2.2 = true ∧
    qS2.2.2 = true ∧
    qS2.1.messageQueue.length = 2 ∧
    qS3.2.2 = false ∧
    qS3.2.1.cbs = [⟨3, some "WebSocket is not open"⟩] ∧
    qS3.1.messageQueue.length = 2 :=
  C6_queue_bound envOk (mkClient cfgQ) (Reachable.init cfgQ)

/-- C7: `send` while not OPEN with queuing disabled returns false, invokes
the callback with the "not open" error and leaves the whole client (in
particular the queue) unchanged; `send` while OPEN hands the payload to
the underlying handle — on success the callback gets no error and true is
returned, on a synchronous underlying failure the callback gets the error,
false is returned and the payload is not queued. -/
theorem C7_send_paths (env : Env) (c d : Client) (s t u : String)
    (cb cb2 cb3 : Option Nat) (er : String)
    (h1 : c._readyState ≠ 1) (h2 : c.config.queueMessages = false)
    (h3 : d.socket = true) (h4 : d._readyState = 1)
    (h5 : env.sendErr t = none) (h6 : env.sendErr u = some er) :
    send env c s cb =
      (c, { noOut with cbs := cbOut cb (some "WebSocket is not open") }, false) ∧
    send env d t cb2 = (d, { noOut with sent := [t], cbs := cbOut cb2 none }, true) ∧
    send env d u cb3 = (d, { noOut with cbs := cbOut cb3 (some er) }, false) := by
  refine ⟨?_, ?_, ?_⟩
  · unfold send
    rw [if_pos (Or.inr h1), if_neg (by simp [h2])]
  · rw [send_open env d t cb2 h3 h4, h5]
  · rw [send_open env d u cb3 h3 h4, h6]

theorem C7_send_paths_witness :
    send envB (mkClient defCfg) "x" (some 1) =
      (mkClient defCfg,
       { noOut with cbs := cbOut (some 1) (some "WebSocket is not open") }, false) ∧
    send envB openC "a" (some 2) =
      (openC, { noOut with sent := ["a"], cbs := cbOut (some 2) none }, true) ∧
    send envB openC "b" (some 3) =
      (openC, { noOut with cbs := cbOut (some 3) (some "boom") }, false) :=
  C7_send_paths envB (mkClient defCfg) openC "x" "a" "b" (some 1) (some 2) (some 3)
    "boom" (by decide) (by decide) (by decide) (by decide) (by decide) (by decide)

/-- C8: at every reachable quiescent state, a live handle exists iff the
state is CONNECTING, OPEN or CLOSING; CLOSED implies the handle is absent;
and `connect()` with a handle already held is a no-op leaving the client
unchanged and emitting nothing. -/
theorem C8_handle_iff_state (env : Env) (c : Client) (h : Reachable env c) :
    ((c.socket = true) ↔
      (c._readyState = 0 ∨ c._readyState = 1 ∨ c._readyState = 2)) ∧
    (c._readyState = 3 → c.socket = false) ∧
    (c.socket = true → stepA env c Act.connectOp = (c, noOut)) := by
  obtain ⟨h1, h2, h3⟩ := reachable_inv env c h
  refine ⟨?_, ?_, ?_⟩
  · constructor
    · intro hs
      rcases h1.mp hs with h0 | h0
      · exact Or.inl h0
      · exact Or.inr (Or.inl h0)
    · intro hr
      rcases hr with h0 | h0 | h0
      · exact h1.mpr (Or.inl h0)
      · exact h1.mpr (Or.inr h0)
      · rcases h2 with ha | ha | ha <;> omega
  · intro h3'
    cases hcs : c.socket with
    | false => rfl
    | true =>
      have := h1.mp hcs
      omega
  · intro hs
    show (connect c, noOut) = (c, noOut)
    unfold connect
    rw [if_pos hs]

theorem C8_handle_iff_state_witness :
    (((connect (mkClient defCfg)).socket = true) ↔
      ((connect (mkClient defCfg))._readyState = 0 ∨
       (connect (mkClient defCfg))._readyState = 1 ∨
       (connect (mkClient defCfg))._readyState = 2)) ∧
    ((connect (mkClient defCfg))._readyState = 3 →
      (connect (mkClient defCfg)).socket = false) ∧
    ((connect (mkClient defCfg)).socket = true →
      stepA envOk (connect (mkClient defCfg)) Act.connectOp =
        (connect (mkClient defCfg), noOut)) :=
  C8_handle_iff_state envOk (connect (mkClient defCfg))
    (Reachable.step (mkClient defCfg) Act.connectOp (Reachable.init defCfg) (by decide))

/-- C9 counterexample: in the reachable initial state (state CLOSED, no
handle) `isClosing` is true although the state is not CLOSING, and
`isClosed` is simultaneously true — the derived booleans are not the
claimed exclusive projections. -/
theorem C9_cex_projections :
    Reachable envOk (mkClient defCfg) ∧
    isClosing (mkClient defCfg) = true ∧
    (mkClient defCfg)._readyState ≠ 2 ∧
    isClosed (mkClient defCfg) = true :=
  ⟨Reachable.init defCfg, by decide, by decide, by decide⟩

/-- C9 (amended): the state is always one of CONNECTING, OPEN, CLOSING,
CLOSED; `isOpen` and `isConnecting` are pure projections of the state, but
`isClosed` holds iff the handle is absent or the state is CLOSED, and
`isClosing` holds iff the handle is absent or the state is CLOSING — so in
every reachable CLOSED state (handle absent) `isClosed` and `isClosing`
are both true at once. -/
theorem C9_amended_projections (env : Env) (c : Client) (h : Reachable env c) :
    (isOpen c = true ↔ c._readyState = 1) ∧
    (isConnecting c = true ↔ c._readyState = 0) ∧
    (isClosed c = true ↔ (c.socket = false ∨ c._readyState = 3)) ∧
    (isClosing c = true ↔ (c.socket = false ∨ c._readyState = 2)) ∧
    (c._readyState = 0 ∨ c._readyState = 1 ∨ c._readyState = 2 ∨ c._readyState = 3) ∧
    (c._readyState = 3 → isClosed c = true ∧ isClosing c = true) := by
  obtain ⟨h1, h2, h3⟩ := reachable_inv env c h
  refine ⟨?_, ?_, ?_, ?_, ?_, ?_⟩
  · simp [isOpen]
  · simp [isConnecting]
  · simp [isClosed]
  · simp [isClosing]
  · rcases h2 with h0 | h0 | h0 <;> simp [h0]
  · intro h3'
    cases hcs : c.socket with
    | false => simp [isClosed, isClosing, hcs]
    | true =>
      have := h1.mp hcs
      omega

theorem C9_amended_projections_witness :
    (isOpen (mkClient defCfg) = true ↔ (mkClient defCfg)._readyState = 1) ∧
    (isConnecting (mkClient defCfg) = true ↔ (mkClient defCfg)._readyState = 0) ∧
    (isClosed (mkClient defCfg) = true ↔
      ((mkClient defCfg).socket = false ∨ (mkClient defCfg)._readyState = 3)) ∧
    (isClosing (mkClient defCfg) = true ↔
      ((mkClient defCfg).socket = false ∨ (mkClient defCfg)._readyState = 2)) ∧
    ((mkClient defCfg)._readyState = 0 ∨ (mkClient defCfg)._readyState = 1 ∨
     (mkClient defCfg)._readyState = 2 ∨ (mkClient defCfg)._readyState = 3) ∧
    ((mkClient defCfg)._readyState = 3 →
      isClosed (mkClient defCfg) = true ∧ isClosing (mkClient defCfg) = true) :=
  C9_amended_projections envOk (mkClient defCfg) (Reachable.init defCfg)

/-- C2: on a transition into OPEN (the `onopen` handler), the outbound
queue is drained exactly once and in strict FIFO order — the callback
invocations are exactly one per queued entry, in insertion order, each
receiving its own send outcome — a failed entry's callback gets the error
while the entry is not re-queued and the remaining entries are still
processed (the final queue is empty and the successfully handed payloads
are the non-failing ones in order); the heartbeat monitor is started only
on the already-drained state (final-state factorisation conjunct), so the
drain completes before any heartbeat start. -/
theorem C2_drain_on_open (env : Env) (c : Client) (now : Nat)
    (hs : c.socket = true) :
    (onOpen env c now).1.messageQueue = [] ∧
    (onOpen env c now).2.events = [Ev.opened] ∧
    (onOpen env c now).2.cbs = drainCbs env c.messageQueue ∧
    (onOpen env c now).2.sent = drainSent env c.messageQueue ∧
    (onOpen env c now).1 =
      startHeartbeat { c with connectTimeoutPending := false, _readyState := 1,
                              reconnectAttempts := 0, messageQueue := [] } now ∧
    (truthy c.config.heartbeatInterval = true →
      (onOpen env c now).1.pingInterval = true) := by
  rw [onOpen_eq env c now hs]
  refine ⟨?_, rfl, rfl, rfl, rfl, ?_⟩
  · unfold startHeartbeat stopHeartbeat
    split <;> rfl
  · intro ht
    unfold startHeartbeat stopHeartbeat
    rw [if_neg (by simp [ht])]

theorem C2_drain_on_open_witness :
    (onOpen envB cQ3 5).1.messageQueue = [] ∧
    (onOpen envB cQ3 5).2.events = [Ev.opened] ∧
    (onOpen envB cQ3 5).2.cbs = drainCbs envB cQ3.messageQueue ∧
    (onOpen envB cQ3 5).2.sent = drainSent envB cQ3.messageQueue ∧
    (onOpen envB cQ3 5).1 =
      startHeartbeat { cQ3 with connectTimeoutPending := false, _readyState := 1,
                                reconnectAttempts := 0, messageQueue := [] } 5 ∧
    (truthy cQ3.config.heartbeatInterval = true →
      (onOpen envB cQ3 5).1.pingInterval = true) :=
  C2_drain_on_open envB cQ3 5 (by decide)

/-- C3 counterexample: with `heartbeatInterval = 1000` (heartbeat timeout
defaulting to 30000), after `connect`, `open` at time 0 and no inbound
traffic, the interval ticks at times 40000 and 41000 — both legal steps,
the underlying close requested by the first tick not yet delivered — emit
`heartbeat-timeout` twice for the single silent-link violation:
"exactly once per violation" is not enforced by the code. -/
theorem C3_cex_double_fire :
    allEnabled envOk (mkClient cfgHB) hbActs = true ∧
    (runA envOk (mkClient cfgHB) hbActs).2.events =
      [Ev.opened, Ev.heartbeatTimeout, Ev.heartbeatTimeout] ∧
    countEv (runA envOk (mkClient cfgHB) hbActs).2.events Ev.heartbeatTimeout = 2 ∧
    (runA envOk (mkClient cfgHB) hbActs).2.closeCalls = 2 := by decide

/-- C3 (amended): every heartbeat tick while OPEN with elapsed time since
`lastPongTime` strictly above the configured timeout (default 30000)
emits `heartbeat-timeout` and requests close of the underlying handle —
this recurs on each further tick until the resulting close event is
processed (so possibly more than once per violation), after which the
monitor is stopped (`onClose` leaves the interval timer disarmed); a tick
within the timeout, or while not OPEN, does nothing; the monitor never
changes any client field; an inbound message sets `lastPongTime` to now
and re-emits `message` with the raw payload unchanged. -/
theorem C3_amended_heartbeat (c c2 : Client) (now now2 now3 : Nat) (d : String)
    (code : Nat) (reason : String)
    (h1 : c._readyState = 1)
    (h2 : now - c.lastPongTime.getD 0 > jsOr c.config.heartbeatTimeout 30000)
    (h3 : now2 - c.lastPongTime.getD 0 ≤ jsOr c.config.heartbeatTimeout 30000)
    (h4 : c2._readyState ≠ 1) :
    heartbeatTick c now =
      (c, { noOut with events := [Ev.heartbeatTimeout], closeCalls := 1 }) ∧
    heartbeatTick c now2 = (c, noOut) ∧
    heartbeatTick c2 now = (c2, noOut) ∧
    (onClose c code reason).1.pingInterval = false ∧
    onMessage c d now3 =
      ({ c with lastPongTime := some now3 },
       { noOut with events := [Ev.message d] }) := by
  refine ⟨?_, ?_, ?_, ?_, rfl⟩
  · unfold heartbeatTick
    rw [if_pos h1]
    dsimp only
    rw [if_pos h2]
  · unfold heartbeatTick
    rw [if_pos h1]
    dsimp only
    rw [if_neg (not_lt.mpr h3)]
  · unfold heartbeatTick
    rw [if_neg h4]
  · unfold onClose scheduleReconnect clearReconnectTimer stopHeartbeat
    dsimp only
    split
    · rfl
    · split <;> rfl

theorem C3_amended_heartbeat_witness :
    heartbeatTick openHB 40000 =
      (openHB, { noOut with events := [Ev.heartbeatTimeout], closeCalls := 1 }) ∧
    heartbeatTick openHB 10 = (openHB, noOut) ∧
    heartbeatTick (mkClient defCfg) 40000 = (mkClient defCfg, noOut) ∧
    (onClose openHB 1000 "bye").1.pingInterval = false ∧
    onMessage openHB "payload" 7 =
      ({ openHB with lastPongTime := some 7 },
       { noOut with events := [Ev.message "payload"] }) :=
  C3_amended_heartbeat openHB (mkClient defCfg) 40000 10 7 "payload" 1000 "bye"
    (by decide) (by decide) (by decide) (by decide)

/-- C4 counterexample: with `connectTimeoutMs = 5000`, `connect()` arms
the connect-timeout timer; a `close()` issued while still CONNECTING
leaves that timer pending — `close()` does not cancel it. -/
theorem C4_cex_connect_timeout_survives_close :
    (connect (mkClient cfgCT))._readyState = 0 ∧
    (connect (mkClient cfgCT)).connectTimeoutPending = true ∧
    (close (connect (mkClient cfgCT))).1.connectTimeoutPending = true ∧
    (close (connect (mkClient cfgCT))).1.socket = false := by decide

/-- C4 (amended): `close()` is a no-op when no handle exists; otherwise it
sets `shouldReconnect` to false, cancels any pending reconnect timer,
stops the heartbeat, ends in state CLOSED with the handle cleared and
emits no event (so it never triggers automatic reconnection).  It does
*not* cancel a pending connect-timeout timer; instead, when that timer
later fires with the state no longer CONNECTING, its handler only
consumes the timer and does nothing else — no close, no error, no
reconnection. -/
theorem C4_amended_close (c d e : Client)
    (hc : c.socket = true) (hd : d.socket = false) (he : e._readyState ≠ 0) :
    close d = (d, noOut) ∧
    (close c).1.shouldReconnect = false ∧
    (close c).1.reconnectTimer = false ∧
    (close c).1.pingInterval = false ∧
    (close c).1.pingTimeout = false ∧
    (close c).1._readyState = 3 ∧
    (close c).1.socket = false ∧
    (close c).1.connectTimeoutPending = c.connectTimeoutPending ∧
    (close c).2 = { noOut with closeCalls := 1 } ∧
    connectTimeoutFire e = ({ e with connectTimeoutPending := false }, noOut) := by
  have hcl : close c =
      ({ c with shouldReconnect := false, reconnectTimer := false,
                pingInterval := false, pingTimeout := false,
                socket := false, _readyState := 3 },
       { noOut with closeCalls := 1 }) := by
    unfold close clearReconnectTimer stopHeartbeat
    rw [if_neg (by simp [hc])]
  refine ⟨?_, ?_, ?_, ?_, ?_, ?_, ?_, ?_, ?_, ?_⟩
  · unfold close
    rw [if_pos hd]
  · rw [hcl]
  · rw [hcl]
  · rw [hcl]
  · rw [hcl]
  · rw [hcl]
  · rw [hcl]
  · rw [hcl]
  · rw [hcl]
  · unfold connectTimeoutFire
    dsimp only
    rw [if_neg he]

theorem C4_amended_close_witness :
    close (mkClient defCfg) = (mkClient defCfg, noOut) ∧
    (close (connect (mkClient cfgCT))).1.shouldReconnect = false ∧
    (close (connect (mkClient cfgCT))).1.reconnectTimer = false ∧
    (close (connect (mkClient cfgCT))).1.pingInterval = false ∧
    (close (connect (mkClient cfgCT))).1.pingTimeout = false ∧
    (close (connect (mkClient cfgCT))).1._readyState = 3 ∧
    (close (connect (mkClient cfgCT))).1.socket = false ∧
    (close (connect (mkClient cfgCT))).1.connectTimeoutPending =
      (connect (mkClient cfgCT)).connectTimeoutPending ∧
    (close (connect (mkClient cfgCT))).2 = { noOut with closeCalls := 1 } ∧
    connectTimeoutFire (mkClient defCfg) =
      ({ mkClient defCfg with connectTimeoutPending := false }, noOut) :=
  C4_amended_close (connect (mkClient cfgCT)) (mkClient defCfg) (mkClient defCfg)
    (by decide) (by decide) (by decide)

/-- C5: in the exhaustion run (default `maxReconnectAttempts = 5`: one
caller `connect()` and six consecutive connection failures with no
successful open), `reconnect-failed(5)` is emitted exactly once, the
final state holds no handle and no armed timer of any kind, and from such
a quiescent dead state the only enabled acts are the public operations —
so no automatic `connect()` can ever occur; `resetReconnectAttempts()`
sets the attempt counter back to 0, and a successful open (the `onopen`
handler) also resets it to 0. -/
theorem C5_reconnect_exhaustion (env : Env) (cq co : Client) (a : Act) (now : Nat)
    (hq1 : cq.socket = false) (hq2 : cq.reconnectTimer = false)
    (hq3 : cq.pingInterval = false) (hq4 : cq.connectTimeoutPending = false)
    (hqa : enabled cq a = true)
    (ho : co.socket = true) :
    allEnabled envOk (mkClient defCfg) exhaustActs = true ∧
    (runA envOk (mkClient defCfg) exhaustActs).2.events =
      [Ev.closeEv 1006 "", Ev.reconnecting 1 1000, Ev.closeEv 1006 "",
       Ev.reconnecting 2 2000, Ev.closeEv 1006 "", Ev.reconnecting 3 4000,
       Ev.closeEv 1006 "", Ev.reconnecting 4 8000, Ev.closeEv 1006 "",
       Ev.reconnecting 5 16000, Ev.closeEv 1006 "", Ev.reconnectFailed 5] ∧
    countEv (runA envOk (mkClient defCfg) exhaustActs).2.events
      (Ev.reconnectFailed 5) = 1 ∧
    (runA envOk (mkClient defCfg) exhaustActs).1.socket = false ∧
    (runA envOk (mkClient defCfg) exhaustActs).1.reconnectTimer = false ∧
    (runA envOk (mkClient defCfg) exhaustActs).1.pingInterval = false ∧
    (runA envOk (mkClient defCfg) exhaustActs).1.connectTimeoutPending = false ∧
    (runA envOk (mkClient defCfg) exhaustActs).1.reconnectAttempts = 5 ∧
    isPublicOp a = true ∧
    resetReconnectAttempts cq = { cq with reconnectAttempts := 0 } ∧
    (onOpen env co now).1.reconnectAttempts = 0 := by
  refine ⟨by decide, by decide, by decide, by decide, by decide, by decide,
          by decide, by decide, ?_, rfl, ?_⟩
  · cases a <;> simp_all [enabled, isPublicOp]
  · rw [onOpen_eq env co now ho]
    show (startHeartbeat { co with connectTimeoutPending := false, _readyState := 1,
                                   reconnectAttempts := 0, messageQueue := [] }
            now).reconnectAttempts = 0
    unfold startHeartbeat stopHeartbeat
    split <;> rfl

theorem C5_reconnect_exhaustion_witness :
    allEnabled envOk (mkClient defCfg) exhaustActs = true ∧
    (runA envOk (mkClient defCfg) exhaustActs).2.events =
      [Ev.closeEv 1006 "", Ev.reconnecting 1 1000, Ev.closeEv 1006 "",
       Ev.reconnecting 2 2000, Ev.closeEv 1006 "", Ev.reconnecting 3 4000,
       Ev.closeEv 1006 "", Ev.reconnecting 4 8000, Ev.closeEv 1006 "",
       Ev.reconnecting 5 16000, Ev.closeEv 1006 "", Ev.reconnectFailed 5] ∧
    countEv (runA envOk (mkClient defCfg) exhaustActs).2.events
      (Ev.reconnectFailed 5) = 1 ∧
    (runA envOk (mkClient defCfg) exhaustActs).1.socket = false ∧
    (runA envOk (mkClient defCfg) exhaustActs).1.reconnectTimer = false ∧
    (runA envOk (mkClient defCfg) exhaustActs).1.pingInterval = false ∧
    (runA envOk (mkClient defCfg) exhaustActs).1.connectTimeoutPending = false ∧
    (runA envOk (mkClient defCfg) exhaustActs).1.reconnectAttempts = 5 ∧
    isPublicOp Act.resetOp = true ∧
    resetReconnectAttempts (mkClient defCfg) =
      { mkClient defCfg with reconnectAttempts := 0 } ∧
    (onOpen envOk openC 0).1.reconnectAttempts = 0 :=
  C5_reconnect_exhaustion envOk (mkClient defCfg) openC Act.resetOp 0
    (by decide) (by decide) (by decide) (by decide) (by decide) (by decide)

/-- C10: when the connect-timeout timer fires while still CONNECTING (a
handle is held), the handler runs `close()` — so `shouldReconnect`
becomes false, the handle is cleared, the state ends CLOSED, the
reconnect timer and heartbeat are disarmed — and emits the
`error("Connection timeout")` event; and with `shouldReconnect` false the
`onclose` handler never arms a reconnect timer and never emits a
`reconnecting` event, so after a connect timeout no automatic
reconnection is ever scheduled. -/
theorem C10_connect_timeout_no_reconnect (c c2 : Client) (code : Nat) (reason : String)
    (h1 : c._readyState = 0) (h2 : c.socket = true)
    (h3 : c2.shouldReconnect = false) :
    (connectTimeoutFire c).1.shouldReconnect = false ∧
    (connectTimeoutFire c).1.socket = false ∧
    (connectTimeoutFire c).1._readyState = 3 ∧
    (connectTimeoutFire c).1.reconnectTimer = false ∧
    (connectTimeoutFire c).1.pingInterval = false ∧
    (connectTimeoutFire c).1.connectTimeoutPending = false ∧
    (connectTimeoutFire c).2.events = [Ev.error "Connection timeout"] ∧
    (connectTimeoutFire c).2.closeCalls = 1 ∧
    (onClose c2 code reason).1.reconnectTimer = c2.reconnectTimer ∧
    hasReconnecting (onClose c2 code reason).2.events = false := by
  have hfire : connectTimeoutFire c =
      ({ c with connectTimeoutPending := false, shouldReconnect := false,
                reconnectTimer := false, pingInterval := false, pingTimeout := false,
                socket := false, _readyState := 3 },
       { noOut with events := [Ev.error "Connection timeout"], closeCalls := 1 }) := by
    unfold connectTimeoutFire close clearReconnectTimer stopHeartbeat Out.append
    dsimp only
    rw [if_pos h1, if_neg (by simp [h2])]
    rfl
  have hcl2 : ¬((stopHeartbeat { c2 with _readyState := 3 }).shouldReconnect = true ∧
      (stopHeartbeat { c2 with _readyState := 3 }).reconnectAttempts <
        (stopHeartbeat { c2 with _readyState := 3 }).maxReconnectAttempts) := by
    simp [stopHeartbeat, h3]
  refine ⟨?_, ?_, ?_, ?_, ?_, ?_, ?_, ?_, ?_, ?_⟩
  · rw [hfire]
  · rw [hfire]
  · rw [hfire]
  · rw [hfire]
  · rw [hfire]
  · rw [hfire]
  · rw [hfire]
  · rw [hfire]
  · unfold onClose scheduleReconnect clearReconnectTimer
    dsimp only
    rw [if_neg hcl2]
    split <;> rfl
  · unfold onClose scheduleReconnect clearReconnectTimer
    dsimp only
    rw [if_neg hcl2]
    split <;> rfl

theorem C10_connect_timeout_no_reconnect_witness :
    (connectTimeoutFire (connect (mkClient cfgCT))).1.shouldReconnect = false ∧
    (connectTimeoutFire (connect (mkClient cfgCT))).1.socket = false ∧
    (connectTimeoutFire (connect (mkClient cfgCT))).1._readyState = 3 ∧
    (connectTimeoutFire (connect (mkClient cfgCT))).1.reconnectTimer = false ∧
    (connectTimeoutFire (connect (mkClient cfgCT))).1.pingInterval = false ∧
    (connectTimeoutFire (connect (mkClient cfgCT))).1.connectTimeoutPending = false ∧
    (connectTimeoutFire (connect (mkClient cfgCT))).2.events =
      [Ev.error "Connection timeout"] ∧
    (connectTimeoutFire (connect (mkClient cfgCT))).2.closeCalls = 1 ∧
    (onClose (mkClient defCfg) 1006 "").1.reconnectTimer =
      (mkClient defCfg).reconnectTimer ∧
    hasReconnecting (onClose (mkClient defCfg) 1006 "").2.events = false :=
  C10_connect_timeout_no_reconnect (connect (mkClient cfgCT)) (mkClient defCfg)
    1006 "" (by decide) (by decide) (by decide)

end WS
